import Mathlib

/-!
Verification of the go-vmcparser repository: a two-layer decoder for the VMC
motion-capture protocol carried over the OSC binary wire format.

Layer 1 (package osc, file osc/osc.go and osc/arguments.go) turns a byte
buffer into a typed packet (message or recursive bundle).  Layer 2 (package
vmc, files vmc/vmc.go, vmc/marionette.go, vmc/decode.go) maps a closed
catalogue of message addresses to strongly typed records.  An older,
message-based variant of the vmc layer (from the predecessor go-vmc module)
is embedded as well, because its DeviceTransform record carries the
Device/Local discriminants.

Modelling conventions:
* a Go byte slice is a `List Nat` of byte values (0..255);
* Go `int32`/`int64` values are `Int` with explicit two's-complement
  reinterpretation of the big-endian unsigned value;
* `float32`/`float64` values are kept as their raw big-endian bit patterns
  (`Nat`): the decoder never does arithmetic on them, it only
  reinterprets bits, so bit-level equality is exactly Go-level equality;
* fallible readers return `Except` of an error enumeration mirroring the
  package's error values; reading advances by returning the remaining list;
* the unbounded mutual recursion between packet and bundle reading is
  expressed with an explicit fuel parameter; fuel exhaustion is the
  `Option.none` result, distinct from every decoder outcome.
-/

/-- Byte values of an ASCII string literal.  All address and signature
literals in the repository are ASCII, so code points and bytes agree. -/
def strBytes (s : String) : List Nat :=
  s.data.map Char.toNat

namespace Osc

/-- Packet-marker and type-tag byte values used throughout osc/osc.go. -/
def slashByte : Nat := 47

def hashByte : Nat := 35

def commaByte : Nat := 44

def typeTagInt : Nat := 105

def typeTagFloat : Nat := 102

def typeTagString : Nat := 115

def typeTagBlob : Nat := 98

def typeTagInt64 : Nat := 104

def typeTagTimeTag : Nat := 116

def typeTagDouble : Nat := 100

def typeTagSymbol : Nat := 83

def typeTagChar : Nat := 99

def typeTagRgba : Nat := 114

def typeTagMidi : Nat := 109

def typeTagTrue : Nat := 84

def typeTagFalse : Nat := 70

def typeTagNil : Nat := 78

def typeTagInfinitum : Nat := 124

def typeTagArrayStart : Nat := 91

def typeTagArrayEnd : Nat := 93

/-- The error values of the osc package (osc/osc.go and osc/arguments.go). -/
inductive OscError where
  | inputEmpty
  | invalidPacket
  | typeTagsStartMissing
  | arraysNotSupported
  | invalidBundleIdentifier
  | elementTooShort
  | unknownTypeTag (tag : Nat)
  | intTooShort
  | floatTooShort
  | stringMissingTerminator
  | blobTooShort
  | int64TooShort
  | timeTagTooShort
  | doubleTooShort
  | charTooShort
  | rgbaTooShort
  | midiTooShort
  | negativeLength
deriving DecidableEq, Repr

/-- Big-endian 32-bit unsigned value of four bytes. -/
def be32 (b0 b1 b2 b3 : Nat) : Nat :=
  ((b0 * 256 + b1) * 256 + b2) * 256 + b3

/-- Big-endian 64-bit unsigned value of eight bytes. -/
def be64 (b0 b1 b2 b3 b4 b5 b6 b7 : Nat) : Nat :=
  ((((((b0 * 256 + b1) * 256 + b2) * 256 + b3) * 256 + b4) * 256 + b5) * 256 + b6) * 256 + b7

/-- Two's-complement reinterpretation of a 32-bit unsigned value, as in
Go's `int32(binary.BigEndian.Uint32(...))`. -/
def toInt32 (n : Nat) : Int :=
  if n < 2147483648 then (n : Int) else (n : Int) - 4294967296

/-- Two's-complement reinterpretation of a 64-bit unsigned value. -/
def toInt64 (n : Nat) : Int :=
  if n < 9223372036854775808 then (n : Int) else (n : Int) - 18446744073709551616

/-- osc/arguments.go `pad`: number of bytes to add to `length` so that the
total is the next multiple of 4 (always between 1 and 4). -/
def pad (length : Nat) : Nat :=
  4 - length % 4

/-- Index of the first zero byte, as computed by `bytes.IndexByte(buf, 0)`
in osc/arguments.go `ReadString` (`none` when no zero byte exists). -/
def findZero : List Nat → Option Nat
  | [] => none
  | b :: rest => if b = 0 then some 0 else (findZero rest).map (· + 1)

/-- osc/arguments.go `ReadString`: scan for the zero terminator, return the
content before it, and advance past content plus terminator/padding.

The advance `pos + pad pos` is the slice offset the Go source applies with
`buf[len(value)+pad(len(value)):]`; when it exceeds the buffer length the
Go slice expression runs out of the buffer's bounds (see
`readStringAdvance`), while `List.drop` here simply yields `[]`. -/
def ReadString (buf : List Nat) : Except OscError (List Nat × List Nat) :=
  match findZero buf with
  | none => .error .stringMissingTerminator
  | some pos => .ok (buf.take pos, buf.drop (pos + pad pos))

/-- The slice offset `len(value) + pad(len(value))` that `ReadString`
advances by (osc/arguments.go line 64), exposed for bounds analysis. -/
def readStringAdvance (buf : List Nat) : Option Nat :=
  (findZero buf).map (fun pos => pos + pad pos)

/-- osc/arguments.go `readInt`: 4 bytes, big-endian, signed. -/
def readInt (buf : List Nat) : Except OscError (Int × List Nat) :=
  match buf with
  | b0 :: b1 :: b2 :: b3 :: rest => .ok (toInt32 (be32 b0 b1 b2 b3), rest)
  | _ => .error .intTooShort

/-- osc/arguments.go `readFloat`: 4 bytes; the value is kept as its raw
bit pattern (Go reinterprets the same bits with `math.Float32frombits`). -/
def readFloat (buf : List Nat) : Except OscError (Nat × List Nat) :=
  match buf with
  | b0 :: b1 :: b2 :: b3 :: rest => .ok (be32 b0 b1 b2 b3, rest)
  | _ => .error .floatTooShort

/-- osc/arguments.go `readLength`: a 4-byte signed big-endian length that
must be non-negative. -/
def readLength (buf : List Nat) : Except OscError (Nat × List Nat) :=
  match readInt buf with
  | .error _ => .error .intTooShort
  | .ok (length, newBuf) =>
    if length < 0 then .error .negativeLength else .ok (length.toNat, newBuf)

/-- osc/arguments.go `readBlob`: length prefix, content check, then advance
past content plus padding.  As with `ReadString`, the advance
`length + pad length` is the Go slice offset `buf[length+pad(length):]`. -/
def readBlob (buf : List Nat) : Except OscError (List Nat × List Nat) :=
  match readLength buf with
  | .error e => .error e
  | .ok (length, newBuf) =>
    if newBuf.length < length then .error .blobTooShort
    else .ok (newBuf.take length, newBuf.drop (length + pad length))

/-- The slice offset `length + pad(length)` that `readBlob` advances by
past the length field (osc/arguments.go line 91). -/
def blobAdvance (length : Nat) : Nat :=
  length + pad length

/-- osc/arguments.go `readInt64`: 8 bytes, big-endian, signed. -/
def readInt64 (buf : List Nat) : Except OscError (Int × List Nat) :=
  match buf with
  | b0 :: b1 :: b2 :: b3 :: b4 :: b5 :: b6 :: b7 :: rest =>
    .ok (toInt64 (be64 b0 b1 b2 b3 b4 b5 b6 b7), rest)
  | _ => .error .int64TooShort

/-- osc/arguments.go `readTimeTag`: 8 bytes, big-endian, signed. -/
def readTimeTag (buf : List Nat) : Except OscError (Int × List Nat) :=
  match buf with
  | b0 :: b1 :: b2 :: b3 :: b4 :: b5 :: b6 :: b7 :: rest =>
    .ok (toInt64 (be64 b0 b1 b2 b3 b4 b5 b6 b7), rest)
  | _ => .error .timeTagTooShort

/-- osc/arguments.go `readDouble`: 8 bytes, kept as the raw bit pattern. -/
def readDouble (buf : List Nat) : Except OscError (Nat × List Nat) :=
  match buf with
  | b0 :: b1 :: b2 :: b3 :: b4 :: b5 :: b6 :: b7 :: rest =>
    .ok (be64 b0 b1 b2 b3 b4 b5 b6 b7, rest)
  | _ => .error .doubleTooShort

/-- osc/arguments.go `readChar`: 4 bytes, a 32-bit code point. -/
def readChar (buf : List Nat) : Except OscError (Nat × List Nat) :=
  match buf with
  | b0 :: b1 :: b2 :: b3 :: rest => .ok (be32 b0 b1 b2 b3, rest)
  | _ => .error .charTooShort

/-- osc/arguments.go `readRgba`: 4 raw bytes. -/
def readRgba (buf : List Nat) : Except OscError (List Nat × List Nat) :=
  match buf with
  | b0 :: b1 :: b2 :: b3 :: rest => .ok ([b0, b1, b2, b3], rest)
  | _ => .error .rgbaTooShort

/-- osc/arguments.go `readMidi`: 4 raw bytes. -/
def readMidi (buf : List Nat) : Except OscError (List Nat × List Nat) :=
  match buf with
  | b0 :: b1 :: b2 :: b3 :: rest => .ok ([b0, b1, b2, b3], rest)
  | _ => .error .midiTooShort

/-- The tagged union of decoded argument values.  Go stores them as
`interface{}` values; the dynamic types from the table in osc/osc.go are
reflected as constructors.  `T`/`F` map to booleans, `N` and the infinitum
tag both map to the nil value. -/
inductive Argument where
  | int (v : Int)
  | float (bits : Nat)
  | str (s : List Nat)
  | blob (b : List Nat)
  | int64 (v : Int)
  | timeTag (v : Int)
  | double (bits : Nat)
  | char (c : Nat)
  | rgba (b : List Nat)
  | midi (b : List Nat)
  | bool (b : Bool)
  | nil
deriving DecidableEq, Repr

/-- The switch body of the argument loop in osc/osc.go `readMessage`: how
one type-tag byte is decoded into one `Argument`, possibly consuming
bytes.  `T`/`F`/`N`/the infinitum tag consume nothing and yield fixed
values, the array tags are rejected, any other unrecognised byte is an
unknown-type-tag error carrying the byte. -/
def readOneArg (tag : Nat) (buf : List Nat) : Except OscError (Argument × List Nat) :=
  if tag = typeTagInt then (readInt buf).map (fun (v, b) => (Argument.int v, b))
  else if tag = typeTagFloat then (readFloat buf).map (fun (v, b) => (Argument.float v, b))
  else if tag = typeTagString ∨ tag = typeTagSymbol then
    (ReadString buf).map (fun (v, b) => (Argument.str v, b))
  else if tag = typeTagBlob then (readBlob buf).map (fun (v, b) => (Argument.blob v, b))
  else if tag = typeTagInt64 then (readInt64 buf).map (fun (v, b) => (Argument.int64 v, b))
  else if tag = typeTagTimeTag then (readTimeTag buf).map (fun (v, b) => (Argument.timeTag v, b))
  else if tag = typeTagDouble then (readDouble buf).map (fun (v, b) => (Argument.double v, b))
  else if tag = typeTagChar then (readChar buf).map (fun (v, b) => (Argument.char v, b))
  else if tag = typeTagRgba then (readRgba buf).map (fun (v, b) => (Argument.rgba v, b))
  else if tag = typeTagMidi then (readMidi buf).map (fun (v, b) => (Argument.midi v, b))
  else if tag = typeTagTrue then .ok (Argument.bool true, buf)
  else if tag = typeTagFalse then .ok (Argument.bool false, buf)
  else if tag = typeTagNil ∨ tag = typeTagInfinitum then .ok (Argument.nil, buf)
  else if tag = typeTagArrayStart ∨ tag = typeTagArrayEnd then .error .arraysNotSupported
  else .error (.unknownTypeTag tag)

/-- The argument loop of osc/osc.go `readMessage`: one `Argument` per tag
byte after the marker, in order, threading the buffer.  Go iterates the tag
string and fills a pre-sized slice; an error at any tag aborts the whole
read, so the loop is equivalent to this recursion.  Go ranges over the tag
string rune by rune; every catalogue tag is a single ASCII byte, and any
multi-byte rune falls into the unknown-tag branch either way, so the loop
is modelled byte by byte. -/
def readArgs : List Nat → List Nat → Except OscError (List Argument × List Nat)
  | [], buf => .ok ([], buf)
  | tag :: tags, buf =>
    match readOneArg tag buf with
    | .error e => .error e
    | .ok (arg, buf') =>
      match readArgs tags buf' with
      | .error e => .error e
      | .ok (args, rest) => .ok (arg :: args, rest)

/-- osc/osc.go `Message`.  `TypeTags` omits the leading comma marker, as in
the source (`typeTags[1:]`). -/
structure Message where
  Address : List Nat
  TypeTags : List Nat
  Arguments : List Argument
  Raw : List Nat
deriving DecidableEq, Repr

/-- osc/osc.go `readMessage`: address string, comma marker check, type-tag
string, then the argument loop.  `Raw` is bound to the whole input slice at
entry (`raw := buf`). -/
def readMessage (buf : List Nat) : Except OscError (Message × List Nat) :=
  let raw := buf
  match ReadString buf with
  | .error _ => .error .stringMissingTerminator
  | .ok (address, buf1) =>
    if buf1.head? ≠ some commaByte then .error .typeTagsStartMissing
    else
      match ReadString buf1 with
      | .error _ => .error .stringMissingTerminator
      | .ok (typeTags, buf2) =>
        match readArgs (typeTags.drop 1) buf2 with
        | .error e => .error e
        | .ok (arguments, buf3) =>
          .ok ({ Address := address, TypeTags := typeTags.drop 1,
                 Arguments := arguments, Raw := raw }, buf3)

/-- The byte string the bundle identifier must equal ("#bundle"). -/
def bundleIdent : List Nat := strBytes "#bundle"

mutual

/-- osc/osc.go `Packet` and `Bundle`.  A packet holds an optional message
and an optional bundle; a bundle holds a time tag and packet contents. -/
inductive Packet where
  | mk (message : Option Message) (bundle : Option Bundle)

/-- See `Packet`. -/
inductive Bundle where
  | mk (timeTag : Int) (contents : List Packet)

end

/-- Field accessor mirroring `Packet.Message`. -/
def Packet.Message : Packet → Option Osc.Message
  | .mk m _ => m

/-- Field accessor mirroring `Packet.Bundle`. -/
def Packet.Bundle : Packet → Option Osc.Bundle
  | .mk _ b => b

/-- Field accessor mirroring `Bundle.TimeTag`. -/
def Bundle.TimeTag : Bundle → Int
  | .mk t _ => t

/-- Field accessor mirroring `Bundle.Contents`. -/
def Bundle.Contents : Bundle → List Packet
  | .mk _ c => c

mutual

/-- osc/osc.go `ReadPacket`, with explicit recursion fuel.  Empty input is
`inputEmpty`; the first byte dispatches to the message or bundle reader;
anything else is `invalidPacket`.  `none` means the fuel ran out, which
never happens when the fuel exceeds the buffer length.  Each of the three
mutually recursive functions passes the structurally smaller fuel on, so
the definitions reduce computationally. -/
def readPacketF : Nat → List Nat → Option (Except OscError (Packet × List Nat))
  | 0, _ => none
  | fuel + 1, buf =>
    match buf with
    | [] => some (.error .inputEmpty)
    | b :: _ =>
      if b = slashByte then
        match readMessage buf with
        | .error e => some (.error e)
        | .ok (m, newBuf) => some (.ok (Packet.mk (some m) none, newBuf))
      else if b = hashByte then
        match readBundleF fuel buf with
        | none => none
        | some (.error e) => some (.error e)
        | some (.ok (bdl, newBuf)) => some (.ok (Packet.mk none (some bdl), newBuf))
      else some (.error .invalidPacket)

/-- osc/osc.go `readBundle`: identifier via the string rule compared against
"#bundle", 8-byte time tag, then the element loop. -/
def readBundleF : Nat → List Nat → Option (Except OscError (Bundle × List Nat))
  | 0, _ => none
  | fuel + 1, buf =>
    match ReadString buf with
    | .error _ => some (.error .stringMissingTerminator)
    | .ok (ident, buf1) =>
      if ident ≠ bundleIdent then some (.error .invalidBundleIdentifier)
      else
        match readTimeTag buf1 with
        | .error _ => some (.error .timeTagTooShort)
        | .ok (timeTag, buf2) =>
          match bundleLoopF fuel buf2 [] with
          | none => none
          | some (.error e) => some (.error e)
          | some (.ok (contents, newBuf)) => some (.ok (Bundle.mk timeTag contents, newBuf))

/-- The `for len(buf) > 4` element loop of osc/osc.go `readBundle`: read a
4-byte element length, check sufficiency, recursively read a packet from
the remaining view (not bounded to the declared length), and append. -/
def bundleLoopF : Nat → List Nat → List Packet →
    Option (Except OscError (List Packet × List Nat))
  | 0, _, _ => none
  | fuel + 1, buf, contents =>
    if 4 < buf.length then
      match readLength buf with
      | .error e => some (.error e)
      | .ok (length, buf1) =>
        if buf1.length < length then some (.error .elementTooShort)
        else
          match readPacketF fuel buf1 with
          | none => none
          | some (.error e) => some (.error e)
          | some (.ok (packet, buf2)) => bundleLoopF fuel buf2 (contents ++ [packet])
    else some (.ok (contents, buf))

end

/-- Top-level packet reader with ample fuel for its input (each unit of
fuel spent along any path consumes input bytes or ends the parse). -/
def ReadPacket (buf : List Nat) : Option (Except OscError (Packet × List Nat)) :=
  readPacketF (buf.length + 1) buf

end Osc

namespace Vmc

/-- vmc `Vec3` (float32 components kept as raw bit patterns). -/
structure Vec3 where
  X : Nat
  Y : Nat
  Z : Nat
deriving DecidableEq, Repr

/-- vmc `Vec4`. -/
structure Vec4 where
  X : Nat
  Y : Nat
  Z : Nat
  W : Nat
deriving DecidableEq, Repr

/-- The error outcomes of vmc/vmc.go.  Low-level string-read failures that
the vmc layer wraps and passes through are kept under `oscErr`. -/
inductive VmcError where
  | unknownAddress
  | filtered
  | invalidTypeTags (Found : List Nat) (Expected : List (List Nat))
  | invalidEnumValue (Name : String) (Value : Int)
  | invalidBufferLength (Length : Nat) (Expected : List Nat)
  | oscErr (e : Osc.OscError)
deriving DecidableEq, Repr

/-- vmc/decode.go `getString`: wraps `osc.ReadString` (the Go wrapper adds
a message prefix with `%w`; the underlying error kind is preserved). -/
def getString (buf : List Nat) : Except VmcError (List Nat × List Nat) :=
  match Osc.ReadString buf with
  | .error e => .error (.oscErr e)
  | .ok r => .ok r

/-- Modelled from the spec: `osc.ReadTypeTags`, called by vmc/decode.go
`getTypeTags`, is part of this repository but its source is not under
src/ (only the caller is).  Per the spec the byte after the address must be
the comma marker (`TypeTagsStartMissing` otherwise) and the tag string is
read by the usual string rule; the marker is not retained in the tag list
(the vmc layer compares tags against marker-free signatures such as
"iii"). -/
def getTypeTags (buf : List Nat) : Except VmcError (List Nat × List Nat) :=
  if buf.head? ≠ some Osc.commaByte then .error (.oscErr .typeTagsStartMissing)
  else
    match Osc.ReadString buf with
    | .error e => .error (.oscErr e)
    | .ok (tags, rest) => .ok (tags.drop 1, rest)

/-- vmc/decode.go `getInt32`: big-endian signed 32-bit value of the first
four bytes (callers always pass a view of at least four bytes). -/
def getInt32 (buf : List Nat) : Int :=
  match buf with
  | b0 :: b1 :: b2 :: b3 :: _ => Osc.toInt32 (Osc.be32 b0 b1 b2 b3)
  | _ => 0

/-- vmc/decode.go `getFloat32`: raw bit pattern of the first four bytes. -/
def getFloat32 (buf : List Nat) : Nat :=
  match buf with
  | b0 :: b1 :: b2 :: b3 :: _ => Osc.be32 b0 b1 b2 b3
  | _ => 0

/-- vmc/decode.go `getVec3`: three floats at offsets 0, 4, 8. -/
def getVec3 (buf : List Nat) : Vec3 :=
  { X := getFloat32 buf, Y := getFloat32 (buf.drop 4), Z := getFloat32 (buf.drop 8) }

/-- vmc/decode.go `getVec4`: four floats at offsets 0, 4, 8, 12. -/
def getVec4 (buf : List Nat) : Vec4 :=
  { X := getFloat32 buf, Y := getFloat32 (buf.drop 4), Z := getFloat32 (buf.drop 8),
    W := getFloat32 (buf.drop 12) }

/-- Go's conversion `uint8(v)` for a signed 32-bit value: the low byte of
the two's-complement representation. -/
def toUInt8 (v : Int) : Nat :=
  (v % 256).toNat

/-- vmc/marionette.go address constants. -/
def AddressAvailable : List Nat := strBytes "/VMC/Ext/OK"

def AddressRelativeTime : List Nat := strBytes "/VMC/Ext/T"

def AddressRootTransform : List Nat := strBytes "/VMC/Ext/Root/Pos"

def AddressBoneTransform : List Nat := strBytes "/VMC/Ext/Bone/Pos"

def AddressBlendShapeProxyValue : List Nat := strBytes "/VMC/Ext/Blend/Val"

def AddressBlendShapeProxyApply : List Nat := strBytes "/VMC/Ext/Blend/Apply"

def AddressCameraTransform : List Nat := strBytes "/VMC/Ext/Cam"

def AddressControllerInput : List Nat := strBytes "/VMC/Ext/Con"

def AddressKeyboardInput : List Nat := strBytes "/VMC/Ext/Key"

def AddressMidiNoteInput : List Nat := strBytes "/VMC/Ext/Midi/Note"

def AddressMidiCCValueInput : List Nat := strBytes "/VMC/Ext/Midi/CC/Val"

def AddressMidiCCButtonInput : List Nat := strBytes "/VMC/Ext/Midi/CC/Bit"

def AddressDeviceTransformHmd : List Nat := strBytes "/VMC/Ext/Hmd/Pos"

def AddressDeviceTransformCon : List Nat := strBytes "/VMC/Ext/Con/Pos"

def AddressDeviceTransformTra : List Nat := strBytes "/VMC/Ext/Tra/Pos"

def AddressDeviceTransformHmdLocal : List Nat := strBytes "/VMC/Ext/Hmd/Pos/Local"

def AddressDeviceTransformConLocal : List Nat := strBytes "/VMC/Ext/Con/Pos/Local"

def AddressDeviceTransformTraLocal : List Nat := strBytes "/VMC/Ext/Tra/Pos/Local"

def AddressReceiveEnable : List Nat := strBytes "/VMC/Ext/Rcv"

def AddressDirectionalLight : List Nat := strBytes "/VMC/Ext/Light"

def AddressLocalVrm : List Nat := strBytes "/VMC/Ext/VRM"

def AddressRemoteVrm : List Nat := strBytes "/VMC/Ext/Remote"

def AddressOptionString : List Nat := strBytes "/VMC/Ext/Opt"

def AddressBackgroundColor : List Nat := strBytes "/VMC/Ext/Setting/Color"

def AddressWindowAttribute : List Nat := strBytes "/VMC/Ext/Setting/Win"

def AddressLoadedSettingPath : List Nat := strBytes "/VMC/Ext/Config"

/-- `CalibrationState.isValid`: the uint8 value is at most Calibrated (3). -/
def calibrationStateIsValid (s : Nat) : Bool := s ≤ 3

/-- `CalibrationMode.isValid`: the uint8 value is at most MrFloorFix (2). -/
def calibrationModeIsValid (m : Nat) : Bool := m ≤ 2

/-- `ControllerActive.isValid`: the uint8 value is at most ChangeAxis (2). -/
def controllerActiveIsValid (a : Nat) : Bool := a ≤ 2

/-- vmc/marionette.go `Available`.  The calibration fields hold the uint8
enum value when present. -/
structure Available where
  Loaded : Bool
  CalibrationState : Option Nat
  CalibrationMode : Option Nat
  TrackingStatus : Option Bool
deriving DecidableEq, Repr

/-- vmc/marionette.go `parseAvailable`: signature check against "i", "iii",
"iiii"; a single length check against 4, 12 and 16 bytes (the error lists
4, 8, 12, verbatim from the source); the calibration fields are populated
whenever 12 or 16 bytes are present, the tracking flag at 16 bytes.  The
enum raw values are converted to uint8 before the range check, as in
`CalibrationState(rawValue)`. -/
def parseAvailable (tags data : List Nat) : Except VmcError Available :=
  if tags ≠ strBytes "i" ∧ tags ≠ strBytes "iii" ∧ tags ≠ strBytes "iiii" then
    .error (.invalidTypeTags tags [strBytes "i", strBytes "iii", strBytes "iiii"])
  else if data.length ≠ 4 ∧ data.length ≠ 12 ∧ data.length ≠ 16 then
    .error (.invalidBufferLength data.length [4, 8, 12])
  else
    let base : Available :=
      { Loaded := getInt32 data = 1, CalibrationState := none,
        CalibrationMode := none, TrackingStatus := none }
    if data.length = 12 ∨ data.length = 16 then
      let rawState := getInt32 (data.drop 4)
      let calibrationState := toUInt8 rawState
      if ¬ calibrationStateIsValid calibrationState then
        .error (.invalidEnumValue "calibration state" rawState)
      else
        let rawMode := getInt32 (data.drop 8)
        let calibrationMode := toUInt8 rawMode
        if ¬ calibrationModeIsValid calibrationMode then
          .error (.invalidEnumValue "calibration mode" rawMode)
        else
          let withCal :=
            { base with CalibrationState := some calibrationState,
                        CalibrationMode := some calibrationMode }
          if data.length = 16 then
            .ok { withCal with TrackingStatus := some (getInt32 (data.drop 12) = 1) }
          else .ok withCal
    else .ok base

/-- vmc/marionette.go `RelativeTime`. -/
structure RelativeTime where
  Time : Nat
deriving DecidableEq, Repr

/-- vmc/marionette.go `parseRelativeTime`. -/
def parseRelativeTime (tags data : List Nat) : Except VmcError RelativeTime :=
  if tags ≠ strBytes "f" then .error (.invalidTypeTags tags [strBytes "f"])
  else if data.length ≠ 4 then .error (.invalidBufferLength data.length [4])
  else .ok { Time := getFloat32 data }

/-- vmc/marionette.go `RootTransform`. -/
structure RootTransform where
  Name : List Nat
  Position : Vec3
  Quaternion : Vec4
  Scale : Option Vec3
  Offset : Option Vec3
deriving DecidableEq, Repr

/-- vmc/marionette.go `parseRootTransform`. -/
def parseRootTransform (tags data : List Nat) : Except VmcError RootTransform :=
  if tags ≠ strBytes "sfffffff" ∧ tags ≠ strBytes "sfffffffffffff" then
    .error (.invalidTypeTags tags [strBytes "sfffffff", strBytes "sfffffffffffff"])
  else
    match getString data with
    | .error e => .error e
    | .ok (name, data1) =>
      if data1.length ≠ 28 ∧ data1.length ≠ 52 then
        .error (.invalidBufferLength data1.length [28, 52])
      else
        let base : RootTransform :=
          { Name := name, Position := getVec3 data1,
            Quaternion := getVec4 (data1.drop 12), Scale := none, Offset := none }
        if data1.length = 52 then
          .ok { base with Scale := some (getVec3 (data1.drop 28)),
                          Offset := some (getVec3 (data1.drop 40)) }
        else .ok base

/-- vmc/marionette.go `BoneTransform`. -/
structure BoneTransform where
  Name : List Nat
  Position : Vec3
  Quaternion : Vec4
deriving DecidableEq, Repr

/-- vmc/marionette.go `parseBoneTransform`. -/
def parseBoneTransform (tags data : List Nat) : Except VmcError BoneTransform :=
  if tags ≠ strBytes "sfffffff" then
    .error (.invalidTypeTags tags [strBytes "sfffffff"])
  else
    match getString data with
    | .error e => .error e
    | .ok (name, data1) =>
      if data1.length ≠ 28 then .error (.invalidBufferLength data1.length [28])
      else
        .ok { Name := name, Position := getVec3 data1,
              Quaternion := getVec4 (data1.drop 12) }

/-- vmc/marionette.go `BlendShapeProxyValue`. -/
structure BlendShapeProxyValue where
  Name : List Nat
  Value : Nat
deriving DecidableEq, Repr

/-- vmc/marionette.go `parseBlendShapeProxyValue`. -/
def parseBlendShapeProxyValue (tags data : List Nat) :
    Except VmcError BlendShapeProxyValue :=
  if tags ≠ strBytes "sf" then .error (.invalidTypeTags tags [strBytes "sf"])
  else
    match getString data with
    | .error e => .error e
    | .ok (name, data1) =>
      if data1.length ≠ 4 then .error (.invalidBufferLength data1.length [4])
      else .ok { Name := name, Value := getFloat32 data1 }

/-- vmc/marionette.go `BlendShapeProxyApply`. -/
structure BlendShapeProxyApply where
deriving DecidableEq, Repr

/-- vmc/marionette.go `parseBlendShapeProxyApply`. -/
def parseBlendShapeProxyApply (tags data : List Nat) :
    Except VmcError BlendShapeProxyApply :=
  if tags ≠ [] then .error (.invalidTypeTags tags [])
  else if data.length ≠ 0 then .error (.invalidBufferLength data.length [])
  else .ok {}

/-- vmc/marionette.go `CameraTransform`. -/
structure CameraTransform where
  Name : List Nat
  Position : Vec3
  Quaternion : Vec4
  FOV : Nat
deriving DecidableEq, Repr

/-- vmc/marionette.go `parseCameraTransform`. -/
def parseCameraTransform (tags data : List Nat) : Except VmcError CameraTransform :=
  if tags ≠ strBytes "sffffffff" then
    .error (.invalidTypeTags tags [strBytes "sffffffff"])
  else
    match getString data with
    | .error e => .error e
    | .ok (name, data1) =>
      if data1.length ≠ 32 then .error (.invalidBufferLength data1.length [32])
      else
        .ok { Name := name, Position := getVec3 data1,
              Quaternion := getVec4 (data1.drop 12), FOV := getFloat32 (data1.drop 28) }

/-- vmc/marionette.go `ControllerInput`.  `Active` holds the uint8 value. -/
structure ControllerInput where
  Active : Nat
  Name : List Nat
  IsLeft : Bool
  IsTouch : Bool
  IsAxis : Bool
  Axis : Vec3
deriving DecidableEq, Repr

/-- vmc/marionette.go `parseControllerInput`. -/
def parseControllerInput (tags data : List Nat) : Except VmcError ControllerInput :=
  if tags ≠ strBytes "isiiifff" then
    .error (.invalidTypeTags tags [strBytes "isiiifff"])
  else if data.length ≤ 4 then .error (.invalidBufferLength data.length [4])
  else
    let rawValue := getInt32 data
    let active := toUInt8 rawValue
    if ¬ controllerActiveIsValid active then
      .error (.invalidEnumValue "active (controller)" rawValue)
    else
      match getString (data.drop 4) with
      | .error e => .error e
      | .ok (name, data1) =>
        if data1.length ≠ 24 then .error (.invalidBufferLength data1.length [24])
        else
          .ok { Active := active, Name := name,
                IsLeft := getInt32 data1 = 1, IsTouch := getInt32 (data1.drop 4) = 1,
                IsAxis := getInt32 (data1.drop 8) = 1, Axis := getVec3 (data1.drop 12) }

/-- vmc/marionette.go `KeyboardInput`. -/
structure KeyboardInput where
  Active : Bool
  Name : List Nat
  KeyCode : Int
deriving DecidableEq, Repr

/-- vmc/marionette.go `parseKeyboardInput`. -/
def parseKeyboardInput (tags data : List Nat) : Except VmcError KeyboardInput :=
  if tags ≠ strBytes "isi" then .error (.invalidTypeTags tags [strBytes "isi"])
  else if data.length ≤ 4 then .error (.invalidBufferLength data.length [4])
  else
    let active := getInt32 data = 1
    match getString (data.drop 4) with
    | .error e => .error e
    | .ok (name, data1) =>
      if data1.length ≠ 4 then .error (.invalidBufferLength data1.length [4])
      else .ok { Active := active, Name := name, KeyCode := getInt32 data1 }

/-- vmc/marionette.go `MidiNoteInput`. -/
structure MidiNoteInput where
  Active : Bool
  Channel : Int
  Note : Int
  Velocity : Nat
deriving DecidableEq, Repr

/-- vmc/marionette.go `parseMidiNoteInput`. -/
def parseMidiNoteInput (tags data : List Nat) : Except VmcError MidiNoteInput :=
  if tags ≠ strBytes "iiif" then .error (.invalidTypeTags tags [strBytes "iiif"])
  else if data.length ≠ 16 then .error (.invalidBufferLength data.length [16])
  else
    .ok { Active := getInt32 data = 1, Channel := getInt32 (data.drop 4),
          Note := getInt32 (data.drop 8), Velocity := getFloat32 (data.drop 12) }

/-- vmc/marionette.go `MidiCCValueInput`. -/
structure MidiCCValueInput where
  Knob : Int
  Value : Nat
deriving DecidableEq, Repr

/-- vmc/marionette.go `parseMidiCCValueInput`. -/
def parseMidiCCValueInput (tags data : List Nat) : Except VmcError MidiCCValueInput :=
  if tags ≠ strBytes "if" then .error (.invalidTypeTags tags [strBytes "if"])
  else if data.length ≠ 8 then .error (.invalidBufferLength data.length [8])
  else .ok { Knob := getInt32 data, Value := getFloat32 (data.drop 4) }

/-- vmc/marionette.go `MidiCCButtonInput`. -/
structure MidiCCButtonInput where
  Knob : Int
  Active : Bool
deriving DecidableEq, Repr

/-- vmc/marionette.go `parseMidiCCButtonInput`. -/
def parseMidiCCButtonInput (tags data : List Nat) : Except VmcError MidiCCButtonInput :=
  if tags ≠ strBytes "ii" then .error (.invalidTypeTags tags [strBytes "ii"])
  else if data.length ≠ 8 then .error (.invalidBufferLength data.length [8])
  else .ok { Knob := getInt32 data, Active := getInt32 (data.drop 4) = 1 }

/-- vmc/marionette.go `DeviceTransform` of the zero-copy layer: this
variant carries no Device/Local discriminant fields. -/
structure DeviceTransform where
  Serial : List Nat
  Position : Vec3
  Quaternion : Vec4
deriving DecidableEq, Repr

/-- vmc/marionette.go `parseDeviceTransform` (shared by all six device
addresses; the matched address is not passed in). -/
def parseDeviceTransform (tags data : List Nat) : Except VmcError DeviceTransform :=
  if tags ≠ strBytes "sfffffff" then
    .error (.invalidTypeTags tags [strBytes "sfffffff"])
  else
    match getString data with
    | .error e => .error e
    | .ok (serial, data1) =>
      if data1.length ≠ 28 then .error (.invalidBufferLength data1.length [28])
      else
        .ok { Serial := serial, Position := getVec3 data1,
              Quaternion := getVec4 (data1.drop 12) }

/-- vmc/marionette.go `ReceiveEnable`. -/
structure ReceiveEnable where
  Enable : Bool
  Port : Int
  IPAddress : Option (List Nat)
deriving DecidableEq, Repr

/-- vmc/marionette.go `parseReceiveEnable`. -/
def parseReceiveEnable (tags data : List Nat) : Except VmcError ReceiveEnable :=
  if tags ≠ strBytes "ii" ∧ tags ≠ strBytes "iis" then
    .error (.invalidTypeTags tags [strBytes "ii", strBytes "iis"])
  else if data.length < 8 then .error (.invalidBufferLength data.length [8])
  else
    let base : ReceiveEnable :=
      { Enable := getInt32 data = 1, Port := getInt32 (data.drop 4), IPAddress := none }
    if 8 < data.length then
      match getString (data.drop 8) with
      | .error e => .error e
      | .ok (ipAddress, _) => .ok { base with IPAddress := some ipAddress }
    else .ok base

/-- vmc/marionette.go `DirectionalLight`. -/
structure DirectionalLight where
  Name : List Nat
  Position : Vec3
  Quaternion : Vec4
  Color : Vec4
deriving DecidableEq, Repr

/-- vmc/marionette.go `parseDirectionalLight`. -/
def parseDirectionalLight (tags data : List Nat) : Except VmcError DirectionalLight :=
  if tags ≠ strBytes "sfffffffffff" then
    .error (.invalidTypeTags tags [strBytes "sfffffffffff"])
  else
    match getString data with
    | .error e => .error e
    | .ok (name, data1) =>
      if data1.length ≠ 44 then .error (.invalidBufferLength data1.length [44])
      else
        .ok { Name := name, Position := getVec3 data1,
              Quaternion := getVec4 (data1.drop 12), Color := getVec4 (data1.drop 28) }

/-- vmc/marionette.go `LocalVrm`. -/
structure LocalVrm where
  Path : List Nat
  Title : List Nat
  Hash : Option (List Nat)
deriving DecidableEq, Repr

/-- vmc/marionette.go `parseLocalVrm`. -/
def parseLocalVrm (tags data : List Nat) : Except VmcError LocalVrm :=
  if tags ≠ strBytes "ss" ∧ tags ≠ strBytes "sss" then
    .error (.invalidTypeTags tags [strBytes "ss", strBytes "sss"])
  else if data.length = 0 then .error (.invalidBufferLength data.length [1])
  else
    match getString data with
    | .error e => .error e
    | .ok (path, data1) =>
      match getString data1 with
      | .error e => .error e
      | .ok (title, data2) =>
        if 0 < data2.length then
          match getString data2 with
          | .error e => .error e
          | .ok (hash, _) => .ok { Path := path, Title := title, Hash := some hash }
        else .ok { Path := path, Title := title, Hash := none }

/-- vmc/marionette.go `RemoteVrm`. -/
structure RemoteVrm where
  Service : List Nat
  JSON : List Nat
deriving DecidableEq, Repr

/-- vmc/marionette.go `parseRemoteVrm`. -/
def parseRemoteVrm (tags data : List Nat) : Except VmcError RemoteVrm :=
  if tags ≠ strBytes "ss" then .error (.invalidTypeTags tags [strBytes "ss"])
  else if data.length = 0 then .error (.invalidBufferLength data.length [1])
  else
    match getString data with
    | .error e => .error e
    | .ok (service, data1) =>
      match getString data1 with
      | .error e => .error e
      | .ok (json, _) => .ok { Service := service, JSON := json }

/-- vmc/marionette.go `OptionString`. -/
structure OptionString where
  Option : List Nat
deriving DecidableEq, Repr

/-- vmc/marionette.go `parseOptionString`. -/
def parseOptionString (tags data : List Nat) : Except VmcError OptionString :=
  if tags ≠ strBytes "s" then .error (.invalidTypeTags tags [strBytes "s"])
  else if data.length = 0 then .error (.invalidBufferLength data.length [1])
  else
    match getString data with
    | .error e => .error e
    | .ok (option, _) => .ok { Option := option }

/-- vmc/marionette.go `BackgroundColor`. -/
structure BackgroundColor where
  Color : Vec4
deriving DecidableEq, Repr

/-- vmc/marionette.go `parseBackgroundColor`. -/
def parseBackgroundColor (tags data : List Nat) : Except VmcError BackgroundColor :=
  if tags ≠ strBytes "ffff" then .error (.invalidTypeTags tags [strBytes "ffff"])
  else if data.length ≠ 16 then .error (.invalidBufferLength data.length [16])
  else .ok { Color := getVec4 data }

/-- vmc/marionette.go `WindowAttribute`. -/
structure WindowAttribute where
  IsTopMost : Bool
  IsTransparent : Bool
  WindowClickThrough : Bool
  HideBorder : Bool
deriving DecidableEq, Repr

/-- vmc/marionette.go `parseWindowAttribute`. -/
def parseWindowAttribute (tags data : List Nat) : Except VmcError WindowAttribute :=
  if tags ≠ strBytes "iiii" then .error (.invalidTypeTags tags [strBytes "iiii"])
  else if data.length ≠ 16 then .error (.invalidBufferLength data.length [16])
  else
    .ok { IsTopMost := getInt32 data = 1, IsTransparent := getInt32 (data.drop 4) = 1,
          WindowClickThrough := getInt32 (data.drop 8) = 1,
          HideBorder := getInt32 (data.drop 12) = 1 }

/-- vmc/marionette.go `LoadedSettingPath`. -/
structure LoadedSettingPath where
  Path : List Nat
deriving DecidableEq, Repr

/-- vmc/marionette.go `parseLoadedSettingPath`. -/
def parseLoadedSettingPath (tags data : List Nat) : Except VmcError LoadedSettingPath :=
  if tags ≠ strBytes "s" then .error (.invalidTypeTags tags [strBytes "s"])
  else if data.length = 0 then .error (.invalidBufferLength data.length [1])
  else
    match getString data with
    | .error e => .error e
    | .ok (path, _) => .ok { Path := path }

/-- The closed union of VMC record kinds (Go uses a marker interface). -/
inductive VmcMessage where
  | available (a : Available)
  | relativeTime (r : RelativeTime)
  | rootTransform (r : RootTransform)
  | boneTransform (b : BoneTransform)
  | blendShapeProxyValue (b : BlendShapeProxyValue)
  | blendShapeProxyApply (b : BlendShapeProxyApply)
  | cameraTransform (c : CameraTransform)
  | controllerInput (c : ControllerInput)
  | keyboardInput (k : KeyboardInput)
  | midiNoteInput (m : MidiNoteInput)
  | midiCCValueInput (m : MidiCCValueInput)
  | midiCCButtonInput (m : MidiCCButtonInput)
  | deviceTransform (d : DeviceTransform)
  | receiveEnable (r : ReceiveEnable)
  | directionalLight (d : DirectionalLight)
  | localVrm (l : LocalVrm)
  | remoteVrm (r : RemoteVrm)
  | optionString (o : OptionString)
  | backgroundColor (b : BackgroundColor)
  | windowAttribute (w : WindowAttribute)
  | loadedSettingPath (l : LoadedSettingPath)
deriving DecidableEq, Repr

/-- vmc/vmc.go `filterAddress`: an empty filter list accepts everything,
otherwise the address must equal one of the filters. -/
def filterAddress (address : List Nat) (filters : List (List Nat)) : Bool :=
  if filters.isEmpty then true
  else filters.any (fun filter => address == filter)

/-- vmc/vmc.go `ParseMessage`: read the address, apply the optional address
filter, read the type tags, then dispatch on the address literal. -/
def ParseMessage (data : List Nat) (addressFilters : List (List Nat)) :
    Except VmcError VmcMessage :=
  match getString data with
  | .error e => .error e
  | .ok (address, data1) =>
    if ¬ filterAddress address addressFilters then .error .filtered
    else
      match getTypeTags data1 with
      | .error e => .error e
      | .ok (tags, data2) =>
        if address = AddressAvailable then (parseAvailable tags data2).map .available
        else if address = AddressRelativeTime then
          (parseRelativeTime tags data2).map .relativeTime
        else if address = AddressRootTransform then
          (parseRootTransform tags data2).map .rootTransform
        else if address = AddressBoneTransform then
          (parseBoneTransform tags data2).map .boneTransform
        else if address = AddressBlendShapeProxyValue then
          (parseBlendShapeProxyValue tags data2).map .blendShapeProxyValue
        else if address = AddressBlendShapeProxyApply then
          (parseBlendShapeProxyApply tags data2).map .blendShapeProxyApply
        else if address = AddressCameraTransform then
          (parseCameraTransform tags data2).map .cameraTransform
        else if address = AddressControllerInput then
          (parseControllerInput tags data2).map .controllerInput
        else if address = AddressKeyboardInput then
          (parseKeyboardInput tags data2).map .keyboardInput
        else if address = AddressMidiNoteInput then
          (parseMidiNoteInput tags data2).map .midiNoteInput
        else if address = AddressMidiCCValueInput then
          (parseMidiCCValueInput tags data2).map .midiCCValueInput
        else if address = AddressMidiCCButtonInput then
          (parseMidiCCButtonInput tags data2).map .midiCCButtonInput
        else if address = AddressDeviceTransformHmd ∨ address = AddressDeviceTransformCon ∨
            address = AddressDeviceTransformTra ∨ address = AddressDeviceTransformHmdLocal ∨
            address = AddressDeviceTransformConLocal ∨
            address = AddressDeviceTransformTraLocal then
          (parseDeviceTransform tags data2).map .deviceTransform
        else if address = AddressReceiveEnable then
          (parseReceiveEnable tags data2).map .receiveEnable
        else if address = AddressDirectionalLight then
          (parseDirectionalLight tags data2).map .directionalLight
        else if address = AddressLocalVrm then (parseLocalVrm tags data2).map .localVrm
        else if address = AddressRemoteVrm then (parseRemoteVrm tags data2).map .remoteVrm
        else if address = AddressOptionString then
          (parseOptionString tags data2).map .optionString
        else if address = AddressBackgroundColor then
          (parseBackgroundColor tags data2).map .backgroundColor
        else if address = AddressWindowAttribute then
          (parseWindowAttribute tags data2).map .windowAttribute
        else if address = AddressLoadedSettingPath then
          (parseLoadedSettingPath tags data2).map .loadedSettingPath
        else .error .unknownAddress

end Vmc

namespace VmcMsg

/-!
The older, message-based vmc layer (the go-vmc module), whose decoders
consume an already-built generic `osc.Message`.  Its `DeviceTransform`
record carries the `Device` enum and the `Local` boolean discriminant,
both derived from the matched literal address.  The address string
constants are identical to the newer layer's, so they are shared.
-/

/-- go-vmc `Device` (string-typed constants Hmd, Con, Tra). -/
inductive Device where
  | Hmd
  | Con
  | Tra
deriving DecidableEq, Repr

/-- go-vmc `DeviceTransform`.  The Go field `Local` is a reserved word in
Lean and is rendered `IsLocal`. -/
structure DeviceTransform where
  Device : VmcMsg.Device
  IsLocal : Bool
  Serial : List Nat
  Position : Vmc.Vec3
  Quaternion : Vmc.Vec4
deriving DecidableEq, Repr

/-- The error outcomes of the message-based layer relevant to the device
decoder.  In this layer `InvalidTypeTagsError.Expected` is a single
signature string.  Go extracts argument values with type assertions
(`msg.Arguments[0].(string)`), which abort on a dynamic-type mismatch;
that abort is rendered as `assertionFailed` (unreachable when the
arguments were produced by the osc reader for the checked signature). -/
inductive MsgError where
  | invalidTypeTags (Found : List Nat) (Expected : List Nat)
  | invalidDevice (Address : List Nat)
  | assertionFailed
deriving DecidableEq, Repr

/-- go-vmc `parseDeviceTransform`: check the signature, derive the device
from the matched address (six literals, otherwise InvalidDeviceError),
derive Local from whether the address is one of the three /Local literals,
and copy serial, position and quaternion from the arguments. -/
def parseDeviceTransform (msg : Osc.Message) : Except MsgError DeviceTransform :=
  if msg.TypeTags ≠ strBytes "sfffffff" then
    .error (.invalidTypeTags msg.TypeTags (strBytes "sfffffff"))
  else
    let device : Option Device :=
      if msg.Address = Vmc.AddressDeviceTransformHmd ∨
          msg.Address = Vmc.AddressDeviceTransformHmdLocal then some .Hmd
      else if msg.Address = Vmc.AddressDeviceTransformCon ∨
          msg.Address = Vmc.AddressDeviceTransformConLocal then some .Con
      else if msg.Address = Vmc.AddressDeviceTransformTra ∨
          msg.Address = Vmc.AddressDeviceTransformTraLocal then some .Tra
      else none
    match device with
    | none => .error (.invalidDevice msg.Address)
    | some device =>
      match msg.Arguments with
      | [.str serial, .float f1, .float f2, .float f3,
         .float f4, .float f5, .float f6, .float f7] =>
        .ok { Device := device,
              IsLocal := msg.Address == Vmc.AddressDeviceTransformHmdLocal ||
                msg.Address == Vmc.AddressDeviceTransformConLocal ||
                msg.Address == Vmc.AddressDeviceTransformTraLocal,
              Serial := serial,
              Position := { X := f1, Y := f2, Z := f3 },
              Quaternion := { X := f4, Y := f5, Z := f6, W := f7 } }
      | _ => .error .assertionFailed

end VmcMsg

/-!  Concrete wire inputs used by witnesses and counterexamples. -/

/-- A minimal message: address "/", type tags ",T", no payload (8 bytes). -/
def msgTBytes : List Nat := [47, 0, 0, 0, 44, 84, 0, 0]

/-- A minimal message: address "/", type tags ",F", no payload (8 bytes). -/
def msgFBytes : List Nat := [47, 0, 0, 0, 44, 70, 0, 0]

/-- The decoded form of `msgTBytes` when nothing follows it. -/
def msgTVal : Osc.Message :=
  { Address := [47], TypeTags := [84], Arguments := [.bool true], Raw := msgTBytes }

/-- The 8-byte bundle header "#bundle\x00". -/
def bundleHdr : List Nat := [35, 98, 117, 110, 100, 108, 101, 0]

/-- A bundle (time tag 2) holding the single element `msgTBytes`. -/
def innerBundleBytes : List Nat :=
  bundleHdr ++ [0, 0, 0, 0, 0, 0, 0, 2] ++ [0, 0, 0, 8] ++ msgTBytes

/-- A bundle (time tag 1) holding the single element `innerBundleBytes`:
a bundle containing a bundle containing a message. -/
def outerBundleBytes : List Nat :=
  bundleHdr ++ [0, 0, 0, 0, 0, 0, 0, 1] ++ [0, 0, 0, 28] ++ innerBundleBytes

/-- A bundle (time tag 3) holding two messages in wire order: the T message
then the F message. -/
def flatBundleBytes : List Nat :=
  bundleHdr ++ [0, 0, 0, 0, 0, 0, 0, 3] ++ [0, 0, 0, 8] ++ msgTBytes ++
    [0, 0, 0, 8] ++ msgFBytes

/-- A bundle whose element declares 9 bytes while only 8 remain. -/
def shortBundleBytes : List Nat :=
  bundleHdr ++ [0, 0, 0, 0, 0, 0, 0, 4] ++ [0, 0, 0, 9] ++ msgTBytes

/-- Decoded `innerBundleBytes`. -/
def innerBundleVal : Osc.Bundle :=
  .mk 2 [.mk (some msgTVal) none]

/-- Decoded `outerBundleBytes`: the 2-level nested structure. -/
def outerBundleVal : Osc.Bundle := .mk 1 [.mk none (some innerBundleVal)]

/-- Decoded `flatBundleBytes`: both messages, in wire order.  (The first
message's `Raw` spans to the end of the bundle buffer, per `readMessage`.) -/
def flatBundleVal : Osc.Bundle :=
  .mk 3 [.mk (some { Address := [47], TypeTags := [84], Arguments := [.bool true],
                     Raw := msgTBytes ++ [0, 0, 0, 8] ++ msgFBytes }) none,
         .mk (some { Address := [47], TypeTags := [70], Arguments := [.bool false],
                     Raw := msgFBytes }) none]

/-- The argument list produced by the osc reader for the device-transform
signature "sfffffff": a string then seven floats. -/
def devArgs (serial : List Nat) (f1 f2 f3 f4 f5 f6 f7 : Nat) : List Osc.Argument :=
  [.str serial, .float f1, .float f2, .float f3, .float f4, .float f5, .float f6, .float f7]

/-!  Helper lemmas. -/

/-- `findZero` returns the index of the first zero byte. -/
theorem Osc.findZero_spec_some (buf : List Nat) : ∀ L : Nat, buf[L]? = some 0 →
    (∀ i ∈ List.range L, buf[i]? ≠ some 0) → Osc.findZero buf = some L := by
  induction buf with
  | nil => intro L h _; simp at h
  | cons b rest ih =>
    intro L h hmin
    cases L with
    | zero =>
      simp at h
      simp [findZero, h]
    | succ L =>
      have hb : ¬ b = 0 := by
        have h0 := hmin 0 (by simp)
        simpa using h0
      have hr : findZero rest = some L := by
        apply ih L (by simpa using h)
        intro i hi
        simp only [List.mem_range] at hi
        have := hmin (i + 1) (by simp only [List.mem_range]; omega)
        simpa using this
      simp [findZero, hb, hr]

/-- `findZero` finds nothing on a zero-free buffer. -/
theorem Osc.findZero_spec_none (buf : List Nat) :
    (∀ i ∈ List.range buf.length, buf[i]? ≠ some 0) → Osc.findZero buf = none := by
  induction buf with
  | nil => intro _; simp [findZero]
  | cons b rest ih =>
    intro hmin
    have hb : ¬ b = 0 := by
      have h0 := hmin 0 (by simp)
      simpa using h0
    have hr : findZero rest = none := by
      apply ih
      intro i hi
      simp only [List.mem_range] at hi
      have := hmin (i + 1) (by simp only [List.mem_range, List.length_cons]; omega)
      simpa using this
    simp [findZero, hb, hr]

/-- A non-empty filter list without the address rejects it. -/
theorem Vmc.filterAddress_eq_false (address : List Nat) (filters : List (List Nat))
    (hne : filters ≠ []) (hmem : address ∉ filters) :
    Vmc.filterAddress address filters = false := by
  unfold filterAddress
  rw [if_neg (by simpa [List.isEmpty_iff] using hne)]
  simp only [List.any_eq_false, beq_iff_eq]
  intro f hf he
  exact hmem (he ▸ hf)

/-!  Claim theorems. -/

/-- Claim C1: for each of the six device-transform addresses and any
payload matching the signature "sfffffff", the message-based decoder
yields a DeviceTransform whose Device value and Local flag are determined
by the matched address (Hmd/Con/Tra crossed with the /Local suffix), while
Serial, Position and Quaternion are identical across all six addresses for
the same payload. -/
theorem c1_device_transform_discriminant (serial : List Nat)
    (f1 f2 f3 f4 f5 f6 f7 : Nat) (raw : List Nat) :
    (VmcMsg.parseDeviceTransform
      { Address := Vmc.AddressDeviceTransformHmd, TypeTags := strBytes "sfffffff",
        Arguments := devArgs serial f1 f2 f3 f4 f5 f6 f7, Raw := raw } =
      .ok { Device := .Hmd, IsLocal := false, Serial := serial,
            Position := { X := f1, Y := f2, Z := f3 },
            Quaternion := { X := f4, Y := f5, Z := f6, W := f7 } }) ∧
    (VmcMsg.parseDeviceTransform
      { Address := Vmc.AddressDeviceTransformCon, TypeTags := strBytes "sfffffff",
        Arguments := devArgs serial f1 f2 f3 f4 f5 f6 f7, Raw := raw } =
      .ok { Device := .Con, IsLocal := false, Serial := serial,
            Position := { X := f1, Y := f2, Z := f3 },
            Quaternion := { X := f4, Y := f5, Z := f6, W := f7 } }) ∧
    (VmcMsg.parseDeviceTransform
      { Address := Vmc.AddressDeviceTransformTra, TypeTags := strBytes "sfffffff",
        Arguments := devArgs serial f1 f2 f3 f4 f5 f6 f7, Raw := raw } =
      .ok { Device := .Tra, IsLocal := false, Serial := serial,
            Position := { X := f1, Y := f2, Z := f3 },
            Quaternion := { X := f4, Y := f5, Z := f6, W := f7 } }) ∧
    (VmcMsg.parseDeviceTransform
      { Address := Vmc.AddressDeviceTransformHmdLocal, TypeTags := strBytes "sfffffff",
        Arguments := devArgs serial f1 f2 f3 f4 f5 f6 f7, Raw := raw } =
      .ok { Device := .Hmd, IsLocal := true, Serial := serial,
            Position := { X := f1, Y := f2, Z := f3 },
            Quaternion := { X := f4, Y := f5, Z := f6, W := f7 } }) ∧
    (VmcMsg.parseDeviceTransform
      { Address := Vmc.AddressDeviceTransformConLocal, TypeTags := strBytes "sfffffff",
        Arguments := devArgs serial f1 f2 f3 f4 f5 f6 f7, Raw := raw } =
      .ok { Device := .Con, IsLocal := true, Serial := serial,
            Position := { X := f1, Y := f2, Z := f3 },
            Quaternion := { X := f4, Y := f5, Z := f6, W := f7 } }) ∧
    (VmcMsg.parseDeviceTransform
      { Address := Vmc.AddressDeviceTransformTraLocal, TypeTags := strBytes "sfffffff",
        Arguments := devArgs serial f1 f2 f3 f4 f5 f6 f7, Raw := raw } =
      .ok { Device := .Tra, IsLocal := true, Serial := serial,
            Position := { X := f1, Y := f2, Z := f3 },
            Quaternion := { X := f4, Y := f5, Z := f6, W := f7 } }) :=
  ⟨rfl, rfl, rfl, rfl, rfl, rfl⟩

/-- Claim C2 (counterexample): the claim that an /VMC/Ext/OK payload is
accepted only at the length implied by the supplied signature, and that a
length mismatch reports the full accepted length set, is false: signature
"i" with a 12-byte payload is accepted (and even populates the calibration
fields), and an 8-byte payload is rejected with the list [4, 8, 12], which
contains the rejected length 8 and omits the accepted length 16. -/
theorem c2_available_length_counterexample :
    (Vmc.parseAvailable (strBytes "i") (List.replicate 12 0) =
      .ok { Loaded := false, CalibrationState := some 0, CalibrationMode := some 0,
            TrackingStatus := none }) ∧
    (Vmc.parseAvailable (strBytes "i") (List.replicate 8 0) =
      .error (.invalidBufferLength 8 [4, 8, 12])) :=
  ⟨rfl, rfl⟩

/-- Claim C2 (amended): after the signature check, parseAvailable validates
the payload length only against the address-level set 4/12/16, independent
of which accepted signature was supplied; a length outside that set is
rejected with InvalidBufferLength carrying the found length and the
hard-coded list [4, 8, 12]; signature "i" with a 12-byte payload is
accepted, with the calibration fields populated from the payload. -/
theorem c2_available_length_amended :
    (∀ tags data : List Nat,
      (tags = strBytes "i" ∨ tags = strBytes "iii" ∨ tags = strBytes "iiii") →
      data.length ≠ 4 → data.length ≠ 12 → data.length ≠ 16 →
      Vmc.parseAvailable tags data =
        .error (.invalidBufferLength data.length [4, 8, 12])) ∧
    (Vmc.parseAvailable (strBytes "i") (List.replicate 12 0) =
      .ok { Loaded := false, CalibrationState := some 0, CalibrationMode := some 0,
            TrackingStatus := none }) := by
  constructor
  · intro tags data htags h4 h12 h16
    have hcond : ¬ (tags ≠ strBytes "i" ∧ tags ≠ strBytes "iii" ∧
        tags ≠ strBytes "iiii") := by
      rcases htags with h | h | h <;> simp [h]
    unfold Vmc.parseAvailable
    rw [if_neg hcond, if_pos ⟨h4, h12, h16⟩]
  · rfl

/-- Witness for the amended C2 theorem at signature "i" with 5 bytes. -/
theorem c2_available_length_amended_witness :
    Vmc.parseAvailable (strBytes "i") [0, 0, 0, 0, 0] =
      .error (.invalidBufferLength 5 [4, 8, 12]) :=
  c2_available_length_amended.1 (strBytes "i") [0, 0, 0, 0, 0]
    (Or.inl rfl) (by decide) (by decide) (by decide)

/-- Claim C3 (counterexample): the claim that a decoded message's Raw field
covers exactly the consumed span and excludes trailing unconsumed bytes is
false: decoding the first of two back-to-back messages returns the second
message's bytes as the remainder, yet Raw is the whole two-message
buffer, not the 8-byte consumed span. -/
theorem c3_raw_counterexample :
    (Osc.readMessage (msgTBytes ++ msgTBytes) =
      .ok ({ Address := [47], TypeTags := [84], Arguments := [.bool true],
             Raw := msgTBytes ++ msgTBytes }, msgTBytes)) ∧
    msgTBytes ++ msgTBytes ≠ msgTBytes :=
  ⟨rfl, by decide⟩

/-- Claim C3 (amended): a decoded message's Raw field equals the entire
input buffer handed to the message reader, from the start of the address
through the end of that buffer; it coincides with the consumed span
exactly when the message exhausts the buffer. -/
theorem c3_raw_spans_amended : ∀ (buf : List Nat) (m : Osc.Message) (rest : List Nat),
    Osc.readMessage buf = .ok (m, rest) → m.Raw = buf := by
  intro buf m rest h
  unfold Osc.readMessage at h
  split at h
  · simp at h
  · split at h
    · simp at h
    · split at h
      · simp at h
      · split at h
        · simp at h
        · simp only [Except.ok.injEq, Prod.mk.injEq] at h
          rw [← h.1]

/-- Witness for the amended C3 theorem on a message that exhausts its
buffer. -/
theorem c3_raw_spans_amended_witness : msgTVal.Raw = msgTBytes :=
  c3_raw_spans_amended msgTBytes msgTVal [] rfl

/-- Claim C4 (code bug): the string reader's slice advance `L + pad L` can
exceed the buffer length — on the 1-byte buffer [0] the first zero is at
index 0 and the advance is 4, past the end — and the blob reader's advance
`n + pad n` past the length field exceeds the remaining length whenever
the n content bytes exactly fill the buffer (here n = 4, advance 8),
so the "remainder" slice the Go source takes is out of bounds there. -/
theorem c4_advance_exceeds_bounds :
    (Osc.readStringAdvance [0] = some 4) ∧ (List.length [(0 : Nat)] < 4) ∧
    (Osc.readBlob [0, 0, 0, 4, 1, 2, 3, 4] = .ok ([1, 2, 3, 4], [])) ∧
    (List.length [(1 : Nat), 2, 3, 4] < Osc.blobAdvance 4) :=
  ⟨rfl, by decide, rfl, by decide⟩

/-- Claim C5: the packet reader fails with inputEmpty on an empty buffer
(before any dispatch), fails with invalidPacket when the first byte is
neither the slash nor the hash marker, and on success yields a packet with
exactly one of Message and Bundle set — Message when the first byte is the
slash, Bundle when it is the hash. -/
theorem c5_packet_dispatch :
    (Osc.ReadPacket [] = some (.error .inputEmpty)) ∧
    (∀ (b : Nat) (bs : List Nat), b ≠ Osc.slashByte → b ≠ Osc.hashByte →
      Osc.ReadPacket (b :: bs) = some (.error .invalidPacket)) ∧
    (∀ (fuel : Nat) (buf : List Nat) (p : Osc.Packet) (rest : List Nat),
      Osc.readPacketF fuel buf = some (.ok (p, rest)) →
      (p.Message.isSome = true ∧ p.Bundle = none ∧
        buf.head? = some Osc.slashByte) ∨
      (p.Message = none ∧ p.Bundle.isSome = true ∧
        buf.head? = some Osc.hashByte)) := by
  refine ⟨rfl, ?_, ?_⟩
  · intro b bs h1 h2
    simp only [Osc.ReadPacket, Osc.readPacketF]
    rw [if_neg h1, if_neg h2]
  · intro fuel buf p rest h
    cases fuel with
    | zero => simp [Osc.readPacketF] at h
    | succ fuel =>
      cases buf with
      | nil => simp [Osc.readPacketF] at h
      | cons b bs =>
        simp only [Osc.readPacketF] at h
        split at h
        · rename_i hb
          cases hm : Osc.readMessage (b :: bs) with
          | error e => simp only [hm] at h; simp at h
          | ok r =>
            obtain ⟨m, newBuf⟩ := r
            simp only [hm, Option.some.injEq, Except.ok.injEq, Prod.mk.injEq] at h
            left
            rw [← h.1]
            simp [Osc.Packet.Message, Osc.Packet.Bundle, hb]
        · split at h
          · rename_i hb
            cases hbdl : Osc.readBundleF fuel (b :: bs) with
            | none => simp only [hbdl] at h; simp at h
            | some r =>
              cases r with
              | error e => simp only [hbdl] at h; simp at h
              | ok r2 =>
                obtain ⟨bdl, newBuf⟩ := r2
                simp only [hbdl, Option.some.injEq, Except.ok.injEq, Prod.mk.injEq] at h
                right
                rw [← h.1]
                simp [Osc.Packet.Message, Osc.Packet.Bundle, hb]
          · simp at h

/-- Witness for C5: an unrecognised first byte, and the exactly-one-field
property on a concrete successful parse. -/
theorem c5_packet_dispatch_witness :
    (Osc.ReadPacket [65] = some (.error .invalidPacket)) ∧
    (((Osc.Packet.mk (some msgTVal) none).Message.isSome = true ∧
      (Osc.Packet.mk (some msgTVal) none).Bundle = none ∧
      msgTBytes.head? = some Osc.slashByte) ∨
     ((Osc.Packet.mk (some msgTVal) none).Message = none ∧
      (Osc.Packet.mk (some msgTVal) none).Bundle.isSome = true ∧
      msgTBytes.head? = some Osc.hashByte)) :=
  ⟨c5_packet_dispatch.2.1 65 [] (by decide) (by decide),
   c5_packet_dispatch.2.2 (msgTBytes.length + 1) msgTBytes
     (Osc.Packet.mk (some msgTVal) none) [] (by rfl)⟩

/-- Claim C6: for a buffer whose first zero byte is at index L, the string
read returns the first L bytes and consumes L + (4 - L % 4) bytes when
L % 4 is nonzero and L + 4 bytes when L % 4 is zero; a buffer without any
zero byte fails with the missing-terminator error and consumes nothing. -/
theorem c6_string_padding_law :
    (∀ (buf : List Nat) (L : Nat), buf[L]? = some 0 →
      (∀ i ∈ List.range L, buf[i]? ≠ some 0) →
      Osc.ReadString buf = .ok (buf.take L,
        buf.drop (if L % 4 = 0 then L + 4 else L + (4 - L % 4)))) ∧
    (∀ buf : List Nat, (∀ i ∈ List.range buf.length, buf[i]? ≠ some 0) →
      Osc.ReadString buf = .error .stringMissingTerminator) := by
  constructor
  · intro buf L h hmin
    have hz := Osc.findZero_spec_some buf L h hmin
    have hpad : L + Osc.pad L = if L % 4 = 0 then L + 4 else L + (4 - L % 4) := by
      unfold Osc.pad
      split <;> omega
    unfold Osc.ReadString
    rw [hz, ← hpad]
  · intro buf h
    have hz := Osc.findZero_spec_none buf h
    unfold Osc.ReadString
    rw [hz]

/-- Witness for C6 at string lengths 1 (non-multiple of 4, consume 4) and
4 (multiple of 4, consume 8), plus a zero-free buffer. -/
theorem c6_string_padding_law_witness :
    (Osc.ReadString [97, 0, 0, 0, 98] = .ok ([97], [98])) ∧
    (Osc.ReadString [97, 98, 99, 100, 0, 1, 2, 3] = .ok ([97, 98, 99, 100], [])) ∧
    (Osc.ReadString [1, 2, 3] = .error .stringMissingTerminator) :=
  ⟨c6_string_padding_law.1 [97, 0, 0, 0, 98] 1 (by decide) (by decide),
   c6_string_padding_law.1 [97, 98, 99, 100, 0, 1, 2, 3] 4 (by decide) (by decide),
   c6_string_padding_law.2 [1, 2, 3] (by decide)⟩

/-- Claim C7: the argument loop decodes exactly one Argument per type-tag
byte after the marker, in tag order; the tags T, F, N and the infinitum
tag consume zero bytes and yield true, false, nil and nil; either array
tag fails the whole read with arraysNotSupported; any unrecognised byte
fails with unknownTypeTag carrying that byte; and errors propagate, so no
partial argument list is ever returned. -/
theorem c7_argument_decoding :
    (∀ (tags buf : List Nat) (args : List Osc.Argument) (rest : List Nat),
      Osc.readArgs tags buf = .ok (args, rest) → args.length = tags.length) ∧
    (∀ tags buf : List Nat, Osc.readArgs (Osc.typeTagTrue :: tags) buf =
      (Osc.readArgs tags buf).map (fun r => (Osc.Argument.bool true :: r.1, r.2))) ∧
    (∀ tags buf : List Nat, Osc.readArgs (Osc.typeTagFalse :: tags) buf =
      (Osc.readArgs tags buf).map (fun r => (Osc.Argument.bool false :: r.1, r.2))) ∧
    (∀ tags buf : List Nat, Osc.readArgs (Osc.typeTagNil :: tags) buf =
      (Osc.readArgs tags buf).map (fun r => (Osc.Argument.nil :: r.1, r.2))) ∧
    (∀ tags buf : List Nat, Osc.readArgs (Osc.typeTagInfinitum :: tags) buf =
      (Osc.readArgs tags buf).map (fun r => (Osc.Argument.nil :: r.1, r.2))) ∧
    (∀ tags buf : List Nat,
      Osc.readArgs (Osc.typeTagArrayStart :: tags) buf = .error .arraysNotSupported) ∧
    (∀ tags buf : List Nat,
      Osc.readArgs (Osc.typeTagArrayEnd :: tags) buf = .error .arraysNotSupported) ∧
    (∀ (tag : Nat) (tags buf : List Nat),
      tag ∉ [Osc.typeTagInt, Osc.typeTagFloat, Osc.typeTagString, Osc.typeTagSymbol,
             Osc.typeTagBlob, Osc.typeTagInt64, Osc.typeTagTimeTag, Osc.typeTagDouble,
             Osc.typeTagChar, Osc.typeTagRgba, Osc.typeTagMidi, Osc.typeTagTrue,
             Osc.typeTagFalse, Osc.typeTagNil, Osc.typeTagInfinitum,
             Osc.typeTagArrayStart, Osc.typeTagArrayEnd] →
      Osc.readArgs (tag :: tags) buf = .error (.unknownTypeTag tag)) := by
  refine ⟨?_, ?_, ?_, ?_, ?_, ?_, ?_, ?_⟩
  · intro tags
    induction tags with
    | nil =>
      intro buf args rest h
      simp [Osc.readArgs] at h
      simp [h.1]
    | cons t ts ih =>
      intro buf args rest h
      unfold Osc.readArgs at h
      cases h1 : Osc.readOneArg t buf with
      | error e => simp only [h1] at h; simp at h
      | ok r =>
        obtain ⟨arg, buf'⟩ := r
        simp only [h1] at h
        cases h2 : Osc.readArgs ts buf' with
        | error e => simp only [h2] at h; simp at h
        | ok r2 =>
          obtain ⟨args', rest'⟩ := r2
          simp only [h2, Except.ok.injEq, Prod.mk.injEq] at h
          rw [← h.1]
          simp [ih buf' args' rest' h2]
  · intro tags buf
    have h1 : Osc.readOneArg Osc.typeTagTrue buf = .ok (Osc.Argument.bool true, buf) := rfl
    simp only [Osc.readArgs]
    simp only [h1]
    cases h : Osc.readArgs tags buf with
    | error e => rfl
    | ok r => obtain ⟨args, rest⟩ := r; rfl
  · intro tags buf
    have h1 : Osc.readOneArg Osc.typeTagFalse buf = .ok (Osc.Argument.bool false, buf) := rfl
    simp only [Osc.readArgs]
    simp only [h1]
    cases h : Osc.readArgs tags buf with
    | error e => rfl
    | ok r => obtain ⟨args, rest⟩ := r; rfl
  · intro tags buf
    have h1 : Osc.readOneArg Osc.typeTagNil buf = .ok (Osc.Argument.nil, buf) := rfl
    simp only [Osc.readArgs]
    simp only [h1]
    cases h : Osc.readArgs tags buf with
    | error e => rfl
    | ok r => obtain ⟨args, rest⟩ := r; rfl
  · intro tags buf
    have h1 : Osc.readOneArg Osc.typeTagInfinitum buf = .ok (Osc.Argument.nil, buf) := rfl
    simp only [Osc.readArgs]
    simp only [h1]
    cases h : Osc.readArgs tags buf with
    | error e => rfl
    | ok r => obtain ⟨args, rest⟩ := r; rfl
  · intro tags buf
    have h1 : Osc.readOneArg Osc.typeTagArrayStart buf = .error .arraysNotSupported := rfl
    simp only [Osc.readArgs]
    simp only [h1]
  · intro tags buf
    have h1 : Osc.readOneArg Osc.typeTagArrayEnd buf = .error .arraysNotSupported := rfl
    simp only [Osc.readArgs]
    simp only [h1]
  · intro tag tags buf hmem
    simp only [List.mem_cons, List.mem_singleton, not_or] at hmem
    obtain ⟨h1, h2, h3, h4, h5, h6, h7, h8, h9, h10, h11, h12, h13, h14, h15, h16,
      h17⟩ := hmem
    have hone : Osc.readOneArg tag buf = .error (.unknownTypeTag tag) := by
      unfold Osc.readOneArg
      simp [h1, h2, h3, h4, h5, h6, h7, h8, h9, h10, h11, h12, h13, h14, h15, h16, h17]
    unfold Osc.readArgs
    rw [hone]

/-- Witness for C7: the length law on a one-int message payload, and the
unknown-tag law at the unrecognised byte 120. -/
theorem c7_argument_decoding_witness :
    (([Osc.Argument.int 5] : List Osc.Argument).length =
      ([Osc.typeTagInt] : List Nat).length) ∧
    (Osc.readArgs [120] [] = .error (.unknownTypeTag 120)) :=
  ⟨c7_argument_decoding.1 [Osc.typeTagInt] [0, 0, 0, 5] [Osc.Argument.int 5] [] rfl,
   c7_argument_decoding.2.2.2.2.2.2.2 120 [] [] (by decide)⟩

/-- Claim C8: bundle decoding reads the "#bundle" identifier (anything else
is invalidBundleIdentifier) and an 8-byte time tag, then, while more than
4 bytes remain, reads a big-endian element length, raises elementTooShort
when fewer bytes remain, and recursively reads packets appended in wire
order — a bundle containing a bundle containing a message yields the
2-level nested structure. -/
theorem c8_bundle_recursion :
    (Osc.ReadPacket outerBundleBytes =
      some (.ok (.mk none (some outerBundleVal), []))) ∧
    (Osc.ReadPacket flatBundleBytes =
      some (.ok (.mk none (some flatBundleVal), []))) ∧
    (Osc.ReadPacket shortBundleBytes = some (.error .elementTooShort)) ∧
    (∀ (fuel : Nat) (buf ident rest : List Nat),
      Osc.ReadString buf = .ok (ident, rest) → ident ≠ Osc.bundleIdent →
      Osc.readBundleF (fuel + 1) buf = some (.error .invalidBundleIdentifier)) ∧
    (∀ (fuel : Nat) (buf : List Nat) (contents : List Osc.Packet),
      buf.length ≤ 4 →
      Osc.bundleLoopF (fuel + 1) buf contents = some (.ok (contents, buf))) := by
  refine ⟨rfl, rfl, rfl, ?_, ?_⟩
  · intro fuel buf ident rest h hne
    unfold Osc.readBundleF
    rw [h]
    simp [hne]
  · intro fuel buf contents h
    unfold Osc.bundleLoopF
    rw [if_neg (by omega)]

/-- Witness for C8's two conditional parts: a wrong identifier, and the
loop exit on a 2-byte remainder. -/
theorem c8_bundle_recursion_witness :
    (Osc.readBundleF 1 [35, 97, 0, 0] = some (.error .invalidBundleIdentifier)) ∧
    (Osc.bundleLoopF 1 [1, 2] [] = some (.ok ([], [1, 2]))) :=
  ⟨c8_bundle_recursion.2.2.2.1 0 [35, 97, 0, 0] [35, 97] [] rfl (by decide),
   c8_bundle_recursion.2.2.2.2 0 [1, 2] [] (by decide)⟩

/-- Claim C9 (code bug): parseAvailable converts the raw int32 calibration
values to uint8 before the range check, so the out-of-range raw value 256
wraps to 0 and is silently accepted as the Uncalibrated default instead of
being rejected; the in-range-of-int32 raw value 9 is rejected as the claim
describes, with the field name and the raw value. -/
theorem c9_calibration_enum_truncation :
    (Vmc.parseAvailable (strBytes "iii") [0, 0, 0, 1, 0, 0, 1, 0, 0, 0, 0, 0] =
      .ok { Loaded := true, CalibrationState := some 0, CalibrationMode := some 0,
            TrackingStatus := none }) ∧
    (Vmc.parseAvailable (strBytes "iii") [0, 0, 0, 1, 0, 0, 0, 9, 0, 0, 0, 0] =
      .error (.invalidEnumValue "calibration state" 9)) :=
  ⟨rfl, rfl⟩

/-- Claim C10: with a non-empty address filter that does not contain the
message's address, ParseMessage returns the filtered outcome without
reading type tags or payload: two inputs with the same address bytes and
arbitrarily different bytes after the address both yield exactly the
filtered result. -/
theorem c10_filtered_independent_of_payload :
    ∀ (data1 data2 : List Nat) (filters : List (List Nat))
      (address rest1 rest2 : List Nat),
      filters ≠ [] →
      Vmc.getString data1 = .ok (address, rest1) →
      Vmc.getString data2 = .ok (address, rest2) →
      address ∉ filters →
      Vmc.ParseMessage data1 filters = .error .filtered ∧
      Vmc.ParseMessage data2 filters = .error .filtered := by
  intro data1 data2 filters address rest1 rest2 hne hg1 hg2 hmem
  have hf := Vmc.filterAddress_eq_false address filters hne hmem
  constructor
  · unfold Vmc.ParseMessage
    rw [hg1]
    simp [hf]
  · unfold Vmc.ParseMessage
    rw [hg2]
    simp [hf]

/-- Witness for C10: a bone-transform address against a root-transform
filter, with two different byte tails after the address. -/
theorem c10_filtered_witness :
    Vmc.ParseMessage (Vmc.AddressBoneTransform ++ [0, 0, 0])
      [Vmc.AddressRootTransform] = .error .filtered ∧
    Vmc.ParseMessage (Vmc.AddressBoneTransform ++ [0, 0, 0] ++ strBytes "junk")
      [Vmc.AddressRootTransform] = .error .filtered :=
  c10_filtered_independent_of_payload
    (Vmc.AddressBoneTransform ++ [0, 0, 0])
    (Vmc.AddressBoneTransform ++ [0, 0, 0] ++ strBytes "junk")
    [Vmc.AddressRootTransform]
    Vmc.AddressBoneTransform [] (strBytes "junk")
    (by decide) rfl rfl (by decide)
